import Mathlib

/-!
Shallow embedding of the wasmer WASI runtime capability module
(`lib/wasi/src/runtime/mod.rs`) and of the container-unpack CLI command
(`lib/cli/src/commands/container/unpack.rs`), together with theorems
settling the specification claims about them.

Build-time `cfg` feature selection in the Rust source is modeled by an
explicit `BuildConfig` record passed to the functions whose bodies the
features select.  Shared, lock-protected state (the `Mutex<WasiTtyState>`
inside `DefaultTty`) is modeled by explicit state passing: each bridge
operation is a function of the stored state.
-/

/-- Build-time configuration flags (Cargo features) that select the default
capability providers in `PluggableRuntimeImplementation::new`, the engine
accessor (`sys`), and the `Default` impl branch (`sys-thread`).
`host_termios_unix` is the conjunction `all(feature = "host-termios", unix)`. -/
structure BuildConfig where
  sys : Bool
  sys_thread : Bool
  host_vnet : Bool
  host_reqwest : Bool
  host_termios_unix : Bool
deriving DecidableEq, Repr

/-- Modelled from the spec: `WasiTtyState` is defined in the wider
`wasmer-wasi` crate, outside the inspected sources.  Section 3 of the spec
gives its fields: echo, line-buffering and line-feeds booleans. -/
structure WasiTtyState where
  echo : Bool
  line_buffered : Bool
  line_feeds : Bool
deriving DecidableEq, Repr

namespace DefaultTty

/-- `DefaultTty::reset`: sets echo, line_buffered and line_feeds of the
stored state to false. -/
def reset (state : WasiTtyState) : WasiTtyState :=
  { state with echo := false, line_buffered := false, line_feeds := false }

/-- `DefaultTty::tty_get`: returns a clone of the stored state. -/
def tty_get (state : WasiTtyState) : WasiTtyState :=
  state

/-- `DefaultTty::tty_set`: overwrites the whole stored state with the given
state (`*state = tty_state`). -/
def tty_set (_state tty_state : WasiTtyState) : WasiTtyState :=
  tty_state

end DefaultTty

/-- Virtual networking providers: the two build-selected defaults of
`PluggableRuntimeImplementation::new` plus arbitrary embedder-injected
implementations (`set_networking_implementation` accepts any
`VirtualNetworking` value, identified here by a numeric tag). -/
inductive Networking
| localNetworking
| unsupportedVirtualNetworking
| injected (id : Nat)
deriving DecidableEq, Repr

/-- HTTP client providers: the reqwest-backed default plus arbitrary
embedder-supplied clients. -/
inductive HttpClient
| reqwestHttpClient
| injected (id : Nat)
deriving DecidableEq, Repr

/-- TTY bridge providers: the no-op `DefaultTty` stub, the termios-backed
`SysTyy`, plus arbitrary embedder-supplied bridges (`set_tty`). -/
inductive TtyProvider
| defaultTty
| sysTty
| injected (id : Nat)
deriving DecidableEq, Repr

/-- Compilation engines, opaque to this module: the engine obtained from
`wasmer::Store::default().engine()` in the `Default` impl, and arbitrary
embedder-configured engines. -/
inductive Engine
| storeDefaultEngine
| custom (id : Nat)
deriving DecidableEq, Repr

/-- Virtual task managers, opaque to this module: the shared Tokio manager
used by the `Default` impl and arbitrary embedder-supplied managers. -/
inductive TaskManager
| tokioShared
| custom (id : Nat)
deriving DecidableEq, Repr

/-- A `wasmer::Store`, as far as this module observes it: built from an
explicit engine by `Store::new(engine)`, or by `Store::default()`. -/
inductive Store
| new (engine : Engine)
| default
deriving DecidableEq, Repr

/-- `PluggableRuntimeImplementation`: one task-manager handle plus one
provider per capability.  The `engine` field exists only under the `sys`
feature in the source; it is carried unconditionally here and its accessor
is gated on `BuildConfig.sys`. -/
structure PluggableRuntimeImplementation where
  rt : TaskManager
  networking : Networking
  http_client : Option HttpClient
  engine : Option Engine
  tty : TtyProvider
deriving DecidableEq, Repr

namespace PluggableRuntimeImplementation

/-- `PluggableRuntimeImplementation::set_networking_implementation`:
stores the freshly wrapped provider in the `networking` field. -/
def set_networking_implementation (self : PluggableRuntimeImplementation)
    (net : Networking) : PluggableRuntimeImplementation :=
  { self with networking := net }

/-- `PluggableRuntimeImplementation::set_engine` (under the `sys`
feature): stores the given optional engine. -/
def set_engine (self : PluggableRuntimeImplementation)
    (engine : Option Engine) : PluggableRuntimeImplementation :=
  { self with engine := engine }

/-- `PluggableRuntimeImplementation::set_tty`: stores the given bridge. -/
def set_tty (self : PluggableRuntimeImplementation)
    (tty : TtyProvider) : PluggableRuntimeImplementation :=
  { self with tty := tty }

/-- `PluggableRuntimeImplementation::new`: takes the task manager and picks
each default provider by build configuration — local networking under
`host-vnet` else the unsupported stub, a reqwest client under
`host-reqwest` else none, the termios `SysTyy` under `host-termios`+unix
else the `DefaultTty` stub; the engine starts unset. -/
def new (cfg : BuildConfig) (rt : TaskManager) : PluggableRuntimeImplementation :=
  let networking :=
    if cfg.host_vnet then Networking.localNetworking
    else Networking.unsupportedVirtualNetworking
  let http_client :=
    if cfg.host_reqwest then some HttpClient.reqwestHttpClient else none
  let tty :=
    if cfg.host_termios_unix then TtyProvider.sysTty else TtyProvider.defaultTty
  { rt := rt, networking := networking, http_client := http_client,
    engine := none, tty := tty }

/-- `impl Default for PluggableRuntimeImplementation`: under `sys-thread`
it builds from the shared Tokio task manager and installs the default
store engine; on any other build the body is `unimplemented!`, a
construction-time panic modeled here as `none`. -/
def default (cfg : BuildConfig) : Option PluggableRuntimeImplementation :=
  if cfg.sys_thread then
    let rt := TaskManager.tokioShared
    let s := new cfg rt
    some { s with engine := some Engine.storeDefaultEngine }
  else
    none

end PluggableRuntimeImplementation

namespace WasiRuntime

/-- Impl of `WasiRuntime::networking` for `PluggableRuntimeImplementation`:
returns the stored provider; the return type is not optional. -/
def networking (self : PluggableRuntimeImplementation) : Networking :=
  self.networking

/-- Impl of `WasiRuntime::task_manager`: returns the stored handle; the
return type is not optional. -/
def task_manager (self : PluggableRuntimeImplementation) : TaskManager :=
  self.rt

/-- Impl of `WasiRuntime::engine` (compiled only under the `sys` feature):
clones the stored optional engine.  Without `sys` the accessor does not
exist and no engine can be observed, modeled as `none`. -/
def engine (cfg : BuildConfig) (self : PluggableRuntimeImplementation) :
    Option Engine :=
  if cfg.sys then self.engine else none

/-- Impl of `WasiRuntime::http_client`: returns a reference to the stored
optional client (`self.http_client.as_ref()`). -/
def http_client (self : PluggableRuntimeImplementation) : Option HttpClient :=
  self.http_client

/-- Impl of `WasiRuntime::tty`: returns `Some(self.tty.as_ref())` — always
present for this implementation. -/
def tty (self : PluggableRuntimeImplementation) : Option TtyProvider :=
  some self.tty

/-- Default body of `WasiRuntime::new_store`: under `sys`, use the engine
from `self.engine()` when present and `Store::default()` otherwise; on
non-`sys` builds, always `Store::default()`. -/
def new_store (cfg : BuildConfig) (self : PluggableRuntimeImplementation) :
    Store :=
  if cfg.sys then
    match engine cfg self with
    | some e => Store.new e
    | none => Store.default
  else
    Store.default

end WasiRuntime

/-- `PackageUnpack`: the clap arguments of the container-unpack command. -/
structure PackageUnpack where
  out_dir : String
  overwrite : Bool
  package_path : String
deriving DecidableEq, Repr

/-- Opaque parsed container object (`webc::compat::Container`). -/
structure Container where
  id : Nat
deriving DecidableEq, Repr

/-- The three failure causes of `PackageUnpack::execute`, each carrying the
data its `with_context` message interpolates. -/
inductive UnpackError
| couldNotOpenPackage (package_path : String)
| couldNotCreateOutputDirectory (out_dir : String)
| couldNotExtractPackage
deriving DecidableEq, Repr

/-- The context message `execute` attaches to each failure cause. -/
def UnpackError.describe : UnpackError → String
| .couldNotOpenPackage p => "could not open package at " ++ p
| .couldNotCreateOutputDirectory d => "could not create output directory " ++ d
| .couldNotExtractPackage => "could not extract package"

/-- Filesystem-mutating operations `execute` can perform, in order. -/
inductive FsOp
| create_dir_all (path : String)
| unpackTo (out_dir : String) (overwrite : Bool)
deriving DecidableEq, Repr

/-- Host-environment oracles for the fallible external calls of `execute`:
whether `Container::from_disk` succeeds at a path (and with which parsed
container), whether `fs::create_dir_all` succeeds, and whether
`Container::unpack` succeeds. -/
structure World where
  from_disk : String → Option Container
  create_dir_all : String → Bool
  unpack : Container → String → Bool → Bool

/-- Observable outcome of one `PackageUnpack::execute` run: the lines
printed to stderr, the trace of filesystem-mutating calls issued, and the
returned result. -/
structure ExecOutcome where
  stderr : List String
  fsTrace : List FsOp
  result : Except UnpackError Unit
deriving Repr

/-- `PackageUnpack::execute`: prints a progress line, opens the package
from disk (failure contextualized with the package path, nothing else
done), then creates the output directory (failure contextualized with the
directory), then unpacks (failure contextualized as extraction failure),
and on success prints a confirmation naming the output directory. -/
def PackageUnpack.execute (w : World) (self : PackageUnpack) : ExecOutcome :=
  match w.from_disk self.package_path with
  | none =>
    { stderr := ["Unpacking..."]
      fsTrace := []
      result := Except.error (UnpackError.couldNotOpenPackage self.package_path) }
  | some pkg =>
    if w.create_dir_all self.out_dir then
      if w.unpack pkg self.out_dir self.overwrite then
        { stderr := ["Unpacking...",
                     "Extracted package contents to " ++ self.out_dir]
          fsTrace := [FsOp.create_dir_all self.out_dir,
                      FsOp.unpackTo self.out_dir self.overwrite]
          result := Except.ok () }
      else
        { stderr := ["Unpacking..."]
          fsTrace := [FsOp.create_dir_all self.out_dir,
                      FsOp.unpackTo self.out_dir self.overwrite]
          result := Except.error UnpackError.couldNotExtractPackage }
    else
      { stderr := ["Unpacking..."]
        fsTrace := [FsOp.create_dir_all self.out_dir]
        result := Except.error (UnpackError.couldNotCreateOutputDirectory self.out_dir) }

/-- Modelled from the spec: the CLI driver around `execute` is not among
the inspected sources; per the spec the process exits zero on success and
non-zero after printing a contextualized error on failure. -/
def cliExitCode : Except UnpackError Unit → Nat
| Except.ok _ => 0
| Except.error _ => 1

/-- Helper world for witnesses: opening any package path fails. -/
def worldOpenFails : World :=
  { from_disk := fun _ => none
    create_dir_all := fun _ => true
    unpack := fun _ _ _ => true }

/-- Helper world for witnesses: every external call succeeds. -/
def worldAllOk : World :=
  { from_disk := fun _ => some { id := 0 }
    create_dir_all := fun _ => true
    unpack := fun _ _ _ => true }

/-- Helper world for the C10 witness: opening any package path fails while
directory creation would succeed. -/
def worldOpenFailsDirOk : World :=
  { from_disk := fun _ => none
    create_dir_all := fun _ => true
    unpack := fun _ _ _ => true }

/-- Claim C1 counterexample: a Pluggable Runtime built by `new` under a
configuration that injects no TTY backend still answers `some` (the
default stub) from its `tty()` accessor, refuting the claimed `None`. -/
theorem c1_tty_not_none_counterexample :
    WasiRuntime.tty (PluggableRuntimeImplementation.new
      { sys := false, sys_thread := false, host_vnet := false,
        host_reqwest := false, host_termios_unix := false }
      (TaskManager.custom 0)) ≠ none := by
  decide

/-- Claim C1 (amended): for every Pluggable Runtime constructed without an
explicitly injected TTY provider, `tty()` returns `some` of the no-op
`DefaultTty` stub — the capability is present as a conservative stub; the
`None` absence default belongs to the `WasiRuntime` trait default body,
which this implementation overrides. -/
theorem c1_tty_default_stub (cfg : BuildConfig) (rt : TaskManager)
    (h : cfg.host_termios_unix = false) :
    WasiRuntime.tty (PluggableRuntimeImplementation.new cfg rt) =
      some TtyProvider.defaultTty := by
  simp [WasiRuntime.tty, PluggableRuntimeImplementation.new, h]

/-- Claim C1 witness: the amended statement at a concrete configuration. -/
theorem c1_tty_default_stub_witness :
    WasiRuntime.tty (PluggableRuntimeImplementation.new
      { sys := true, sys_thread := true, host_vnet := true,
        host_reqwest := true, host_termios_unix := false }
      TaskManager.tokioShared) = some TtyProvider.defaultTty :=
  c1_tty_default_stub _ _ rfl

/-- Claim C2: for every TTY state `s` and every prior stored state,
`tty_set s` followed by `tty_get` returns exactly `s`, because `tty_set`
replaces the whole stored state. -/
theorem c2_tty_set_get_roundtrip (s prior : WasiTtyState) :
    DefaultTty.tty_get (DefaultTty.tty_set prior s) = s :=
  rfl

/-- Claim C3: from every prior state, `reset` yields the all-false state
`{echo := false, line_buffered := false, line_feeds := false}`, and a
second `reset` leaves the state at that same value (idempotence). -/
theorem c3_tty_reset_all_false (prior : WasiTtyState) :
    DefaultTty.reset prior =
      { echo := false, line_buffered := false, line_feeds := false } ∧
    DefaultTty.reset (DefaultTty.reset prior) = DefaultTty.reset prior :=
  ⟨rfl, rfl⟩

/-- Claim C4: for every runtime constructed without an HTTP provider
injected (no `host-reqwest` backend selected), `http_client()` returns
`none`. -/
theorem c4_http_client_absent (cfg : BuildConfig) (rt : TaskManager)
    (h : cfg.host_reqwest = false) :
    WasiRuntime.http_client (PluggableRuntimeImplementation.new cfg rt) =
      none := by
  simp [WasiRuntime.http_client, PluggableRuntimeImplementation.new, h]

/-- Claim C4 witness: the statement at a concrete configuration. -/
theorem c4_http_client_absent_witness :
    WasiRuntime.http_client (PluggableRuntimeImplementation.new
      { sys := false, sys_thread := false, host_vnet := true,
        host_reqwest := false, host_termios_unix := true }
      (TaskManager.custom 7)) = none :=
  c4_http_client_absent _ _ rfl

/-- Claim C5: on every runtime built by `new cfg rt`, `task_manager()`
returns exactly the handle `rt` that was passed in, and `networking()`
returns a provider — the local backend when configured, otherwise the
unsupported stub.  Both accessors have non-optional return types, so
neither can signal absence. -/
theorem c5_networking_task_manager_total (cfg : BuildConfig)
    (rt : TaskManager) :
    WasiRuntime.task_manager (PluggableRuntimeImplementation.new cfg rt) = rt ∧
    WasiRuntime.networking (PluggableRuntimeImplementation.new cfg rt) =
      (if cfg.host_vnet then Networking.localNetworking
       else Networking.unsupportedVirtualNetworking) :=
  ⟨rfl, rfl⟩

/-- Claim C6: `new_store` is total and follows the configured engine: when
`engine()` observes `some e` the store is built from `e`, otherwise the
default store construction path is used. -/
theorem c6_new_store_engine_or_default (cfg : BuildConfig)
    (r : PluggableRuntimeImplementation) :
    WasiRuntime.new_store cfg r =
      (match WasiRuntime.engine cfg r with
       | some e => Store.new e
       | none => Store.default) := by
  cases hs : cfg.sys <;>
    simp [WasiRuntime.new_store, WasiRuntime.engine, hs]

/-- Claim C7: each mutator fully replaces the stored reference for its own
capability and leaves every other stored field unchanged. -/
theorem c7_mutators_frame (r : PluggableRuntimeImplementation)
    (net : Networking) (eng : Option Engine) (t : TtyProvider) :
    ((r.set_networking_implementation net).networking = net ∧
      (r.set_networking_implementation net).rt = r.rt ∧
      (r.set_networking_implementation net).http_client = r.http_client ∧
      (r.set_networking_implementation net).engine = r.engine ∧
      (r.set_networking_implementation net).tty = r.tty) ∧
    ((r.set_engine eng).engine = eng ∧
      (r.set_engine eng).rt = r.rt ∧
      (r.set_engine eng).networking = r.networking ∧
      (r.set_engine eng).http_client = r.http_client ∧
      (r.set_engine eng).tty = r.tty) ∧
    ((r.set_tty t).tty = t ∧
      (r.set_tty t).rt = r.rt ∧
      (r.set_tty t).networking = r.networking ∧
      (r.set_tty t).http_client = r.http_client ∧
      (r.set_tty t).engine = r.engine) :=
  ⟨⟨rfl, rfl, rfl, rfl, rfl⟩, ⟨rfl, rfl, rfl, rfl, rfl⟩,
    ⟨rfl, rfl, rfl, rfl, rfl⟩⟩

/-- Claim C8: on builds without the `sys-thread` capability, the
zero-argument default construction path refuses to produce a runtime
object (the `unimplemented!` construction-time panic, modeled as
`none`). -/
theorem c8_default_fails_without_sys_thread (cfg : BuildConfig)
    (h : cfg.sys_thread = false) :
    PluggableRuntimeImplementation.default cfg = none := by
  simp [PluggableRuntimeImplementation.default, h]

/-- Claim C8 witness: the statement at a concrete configuration. -/
theorem c8_default_fails_without_sys_thread_witness :
    PluggableRuntimeImplementation.default
      { sys := true, sys_thread := false, host_vnet := false,
        host_reqwest := false, host_termios_unix := false } = none :=
  c8_default_fails_without_sys_thread _ rfl

/-- Claim C9: `execute` prints a human-readable confirmation and exits
zero on success; each failure cause (package unopenable, output directory
not creatable, extraction failure) produces the error contextualized for
that specific cause, from which the CLI exits non-zero. -/
theorem c9_execute_outcomes (w : World) (cmd : PackageUnpack) :
    ((PackageUnpack.execute w cmd).result = Except.ok () →
      (PackageUnpack.execute w cmd).stderr =
        ["Unpacking...",
         "Extracted package contents to " ++ cmd.out_dir] ∧
      cliExitCode (PackageUnpack.execute w cmd).result = 0) ∧
    (w.from_disk cmd.package_path = none →
      (PackageUnpack.execute w cmd).result =
        Except.error (UnpackError.couldNotOpenPackage cmd.package_path)) ∧
    (∀ pkg, w.from_disk cmd.package_path = some pkg →
      w.create_dir_all cmd.out_dir = false →
      (PackageUnpack.execute w cmd).result =
        Except.error (UnpackError.couldNotCreateOutputDirectory cmd.out_dir)) ∧
    (∀ pkg, w.from_disk cmd.package_path = some pkg →
      w.create_dir_all cmd.out_dir = true →
      w.unpack pkg cmd.out_dir cmd.overwrite = false →
      (PackageUnpack.execute w cmd).result =
        Except.error UnpackError.couldNotExtractPackage) ∧
    (∀ e, (PackageUnpack.execute w cmd).result = Except.error e →
      cliExitCode (PackageUnpack.execute w cmd).result ≠ 0) := by
  rcases hfd : w.from_disk cmd.package_path with _ | pkg <;>
    [skip; cases hcd : w.create_dir_all cmd.out_dir] <;>
    [skip; skip;
      cases hup : w.unpack pkg cmd.out_dir cmd.overwrite] <;>
    simp [PackageUnpack.execute, hfd, cliExitCode] <;>
    simp_all [PackageUnpack.execute, cliExitCode]

/-- Claim C9 witness: the success conjunct at an all-succeeding world and
the open-failure conjunct at a world where opening fails. -/
theorem c9_execute_outcomes_witness :
    ((PackageUnpack.execute worldAllOk
        { out_dir := "out", overwrite := false, package_path := "pkg.webc" }).stderr =
      ["Unpacking...", "Extracted package contents to " ++ "out"] ∧
      cliExitCode (PackageUnpack.execute worldAllOk
        { out_dir := "out", overwrite := false, package_path := "pkg.webc" }).result = 0) ∧
    (PackageUnpack.execute worldOpenFails
        { out_dir := "out", overwrite := false, package_path := "pkg.webc" }).result =
      Except.error (UnpackError.couldNotOpenPackage "pkg.webc") :=
  ⟨(c9_execute_outcomes worldAllOk
      { out_dir := "out", overwrite := false, package_path := "pkg.webc" }).1 rfl,
    (c9_execute_outcomes worldOpenFails
      { out_dir := "out", overwrite := false, package_path := "pkg.webc" }).2.1 rfl⟩

/-- Claim C10: when opening the package fails, `execute` returns the error
having performed no filesystem-mutating operation — in particular the
output directory was not created. -/
theorem c10_no_fs_ops_when_open_fails (w : World) (cmd : PackageUnpack)
    (h : w.from_disk cmd.package_path = none) :
    (PackageUnpack.execute w cmd).fsTrace = [] := by
  simp [PackageUnpack.execute, h]

/-- Claim C10 witness: the statement at a concrete world and command. -/
theorem c10_no_fs_ops_when_open_fails_witness :
    (PackageUnpack.execute worldOpenFailsDirOk
      { out_dir := "out", overwrite := true,
        package_path := "missing.webc" }).fsTrace = [] :=
  c10_no_fs_ops_when_open_fails worldOpenFailsDirOk _ rfl
